import Mathlib

/-!
Shallow embedding of the two-node thermal control testbed
(plant/"bridge" node and controller node, ESP32 C sources).

Conventions of the embedding:
* IEEE-754 `float` arithmetic of the C sources is modelled exactly over `ℚ`;
  the physics constants (25.0, 0.8, 0.02, 0.95, ...) are taken as the exact
  rationals the source literals denote.
* The FreeRTOS bounded-wait mutex acquisition
  `xSemaphoreTake(m, pdMS_TO_TICKS(10)) == pdTRUE` is modelled by a `Bool`
  parameter (`true` = acquired within the bound, `false` = timeout); each
  accessor is a pure function of that outcome and the shared state.
* An ESP-NOW receive callback gets a raw byte pointer plus a length and, when
  the length matches, reinterprets the bytes as a `SimPacket`
  (`(SimPacket*)data`).  A received buffer is therefore modelled as its byte
  length together with its `SimPacket` view.
-/

/-- Physics constants of bridge1.c (lines 25-30).  `AMBIENT_TEMP = 25.0f`. -/
def AMBIENT_TEMP : ℚ := 25

/-- bridge1.c line 26: `MAX_HEATER_TEMP 200.0f` ("Max temp if heater stays on forever"). -/
def MAX_HEATER_TEMP : ℚ := 200

/-- bridge1.c line 27: `HEATING_RATE 0.8f`. -/
def HEATING_RATE : ℚ := 8 / 10

/-- bridge1.c line 28: `COOLING_RATE 0.02f`. -/
def COOLING_RATE : ℚ := 2 / 100

/-- bridge1.c line 29: `THERMAL_MASS 0.95f`. -/
def THERMAL_MASS : ℚ := 95 / 100

/-- bridge.c line 19: `MAX_TEMP 100.0f` ("Max allowed temp") — the clamped
simulator variant's ceiling. -/
def MAX_TEMP : ℚ := 100

/-- simulation_data_packet.h: the packed wire record
`{device_id: u8, id: u8, value: f32, counter: u32}`. -/
structure SimPacket where
  device_id : Nat
  id : Nat
  value : ℚ
  counter : Nat
deriving DecidableEq

/-- Size of the packed wire record, `sizeof(SimPacket)`: 1 + 1 + 4 + 4 bytes. -/
def simPacketSize : Nat := 10

/-- A buffer handed to an ESP-NOW receive callback: its byte length `len` and
the `SimPacket` view obtained by the C cast `(SimPacket*)data` (the view is
only consulted after the length check). -/
structure RecvBuffer where
  len : Nat
  asPacket : SimPacket
deriving DecidableEq

/-- The Shared Process State globals of one node: `current_temp` and
`heater_cmd` (bridge1.c lines 33-34, controller1.c lines 24-25,
controller2.c lines 24-25 — all initialised to 25.0 and 0.0). -/
structure ProcState where
  current_temp : ℚ
  heater_cmd : ℚ
deriving DecidableEq

/-- The power-on Shared Process State: `current_temp = 25.0f`,
`heater_cmd = 0.0f`. -/
def initState : ProcState := { current_temp := 25, heater_cmd := 0 }

/-- bridge1.c `onReceiveData` (lines 141-165): on a length-`sizeof(SimPacket)`
buffer from the controller (`device_id == 1 && id == 1`), clamp the received
value to `[0,1]` (`<= 0.0f -> 0.0f`, `>= 1.0f -> 1.0f`) and, if the mutex is
acquired within its 10 ms bound, store it into `heater_cmd`. -/
def bridge1_onReceiveData (buf : RecvBuffer) (mutexOk : Bool) (st : ProcState) : ProcState :=
  if buf.len = simPacketSize then
    let p := buf.asPacket
    if p.device_id = 1 ∧ p.id = 1 then
      let new_cmd := p.value
      let new_cmd := if new_cmd ≤ 0 then 0 else new_cmd
      let new_cmd := if 1 ≤ new_cmd then 1 else new_cmd
      if mutexOk then { st with heater_cmd := new_cmd } else st
    else st
  else st

/-- controller1.c `onReceiveData` (lines 202-219): on a
length-`sizeof(SimPacket)` buffer carrying a bridge sensor reading
(`device_id == 0 && id == 1`), store `value` into `current_temp` under the
mutex; otherwise leave the state untouched. -/
def controller1_onReceiveData (buf : RecvBuffer) (mutexOk : Bool) (st : ProcState) : ProcState :=
  if buf.len = simPacketSize then
    let p := buf.asPacket
    if p.device_id = 0 ∧ p.id = 1 then
      if mutexOk then { st with current_temp := p.value } else st
    else st
  else st

/-- Modelled from the spec: controller2.c references `target_temp` without
declaring it in any file under src/; section 8 of the design fixes the
set-point at 50.0 degrees. -/
def target_temp : ℚ := 50

/-- Modelled from the spec: controller2.c references `hysteresis` without
declaring it in any file under src/; section 8 of the design fixes the band
at plus-or-minus 1.0 degrees. -/
def hysteresis : ℚ := 1

/-- controller2.c `onReceiveData` (lines 74-106): deposits the received
reading into `current_temp` and, inside the same handler and critical
section, runs the bang-bang hysteresis law to update `heater_cmd`
(`< target - hysteresis -> 1.0f`, `> target + hysteresis -> 0.0f`, else keep). -/
def controller2_onReceiveData (buf : RecvBuffer) (mutexOk : Bool) (st : ProcState) : ProcState :=
  if buf.len = simPacketSize then
    let p := buf.asPacket
    if p.device_id = 0 ∧ p.id = 1 then
      if mutexOk then
        let ct := p.value
        let hc :=
          if ct < target_temp - hysteresis then 1
          else if ct > target_temp + hysteresis then 0
          else st.heater_cmd
        { current_temp := ct, heater_cmd := hc }
      else st
    else st
  else st

/-- controller1.c `host_get_temperature` (lines 33-42): `temp` starts at the
constant `25.0f` and is overwritten by `current_temp` only if the mutex is
acquired within its bound; the function returns `temp` either way. -/
def host_get_temperature (mutexOk : Bool) (st : ProcState) : ℚ :=
  if mutexOk then st.current_temp else 25

/-- controller1.c `host_set_heater` (lines 45-59): clamp the argument
(`< 0.0f -> 0.0f`, `> 1.0f -> 1.0f`), then store it into `heater_cmd` if the
mutex is acquired within its bound. -/
def controller1_host_set_heater (mutexOk : Bool) (value : ℚ) (st : ProcState) : ProcState :=
  let value := if value < 0 then 0 else value
  let value := if value > 1 then 1 else value
  if mutexOk then { st with heater_cmd := value } else st

/-- ESP-IDF `gpio_set_level` semantics: a zero level drives the pin low, any
nonzero level drives it high. -/
def gpio_set_level (value : Int) : Int :=
  if value = 0 then 0 else 1

/-- controller_wamr.c `host_set_heater` (lines 84-89): despite its comment
"Clamp value to 0-1 range", the body only forwards the raw integer to
`gpio_set_level(PIN_HEATER_OUT, value)`; the resulting heater drive level is
this function's value. -/
def wamr_host_set_heater (value : Int) : Int :=
  gpio_set_level value

/-- controller1.c `sender_task` body (lines 230-241): the command copied out
for transmission — `heater_cmd` under the mutex, or the default `0.0f` when
the 10 ms bounded wait fails. -/
def sender_cmd (mutexOk : Bool) (st : ProcState) : ℚ :=
  if mutexOk then st.heater_cmd else 0

/-- bridge1.c `physics_simulation_task` (lines 93-103): the heater command
read at the top of each tick — `heater_cmd` under the mutex, or the default
`0.0f` when the 10 ms bounded wait fails. -/
def physics_local_cmd (mutexOk : Bool) (st : ProcState) : ℚ :=
  if mutexOk then st.heater_cmd else 0

/-- The thermal update of bridge1.c `physics_simulation_task` (lines 105-113),
identical to bridge.c lines 105-114 before its clamp:
`energy_in = cmd * HEATING_RATE`, `energy_out = (t - AMBIENT) * COOLING_RATE`,
`target = t + energy_in - energy_out`,
`t := t * THERMAL_MASS + target * (1 - THERMAL_MASS)`. -/
def physics_tick (local_heater_cmd current_temp : ℚ) : ℚ :=
  let energy_in := local_heater_cmd * HEATING_RATE
  let energy_out := (current_temp - AMBIENT_TEMP) * COOLING_RATE
  let target_next_temp := current_temp + energy_in - energy_out
  current_temp * THERMAL_MASS + target_next_temp * (1 - THERMAL_MASS)

/-- bridge.c `physics_simulation_loop` tick (lines 105-120): the same update
law followed by the explicit clamp
`if (t > MAX_TEMP) t = MAX_TEMP; if (t < AMBIENT_TEMP) t = AMBIENT_TEMP;`. -/
def physics_tick_clamped (heater_cmd current_temp : ℚ) : ℚ :=
  let t := physics_tick heater_cmd current_temp
  let t := if t > MAX_TEMP then MAX_TEMP else t
  if t < AMBIENT_TEMP then AMBIENT_TEMP else t

/-- The bridge1.c internal temperature after `n` ticks, starting from the
initial `current_temp = AMBIENT_TEMP`, driven by the heater command sequence
`cmds` (the command the tick reads at step `n` is `cmds n`). -/
def tempSeq (cmds : ℕ → ℚ) : ℕ → ℚ
  | 0 => AMBIENT_TEMP
  | n + 1 => physics_tick (cmds n) (tempSeq cmds n)

/-- bridge1.c trajectory with the heater held fully on (`cmd = 1.0`). -/
def tempSeq1 : ℕ → ℚ :=
  tempSeq (fun _ => 1)

/-- bridge.c (clamped variant) trajectory with the heater held fully on,
starting from its initial `current_temp = 25.0f`. -/
def tempSeqC : ℕ → ℚ
  | 0 => 25
  | n + 1 => physics_tick_clamped 1 (tempSeqC n)

/-- The three WAMR teardown operations of `run_wasm`. -/
inductive EngineOp where
  | destroy_exec_env
  | deinstantiate
  | unload
deriving DecidableEq

/-- The reported outcome of `run_wasm`. -/
inductive RunOutcome where
  | loadFailed
  | instantiateFailed
  | execEnvFailed
  | completed
  | terminated
  | exception
  | notFound
deriving DecidableEq

/-- controller1.c `run_wasm` (lines 88-160), structurally identical in
controller_wamr.c (lines 114-185).  The runtime-call results are inputs:
`loadOk` (`wasm_runtime_load` non-null), `instOk` (`wasm_runtime_instantiate`
non-null), `envOk` (`wasm_runtime_create_exec_env` non-null), `funcFound`
(`wasm_runtime_lookup_function` found `main`), `callOk`
(`wasm_runtime_call_wasm` returned true), `excTerminated` (the exception
string contains "terminated").  The function returns the reported outcome and
the ordered list of teardown calls the body performs. -/
def run_wasm (loadOk instOk envOk funcFound callOk excTerminated : Bool) :
    RunOutcome × List EngineOp :=
  if loadOk = false then
    (RunOutcome.loadFailed, [])
  else if instOk = false then
    (RunOutcome.instantiateFailed, [EngineOp.unload])
  else if envOk = false then
    (RunOutcome.execEnvFailed, [EngineOp.deinstantiate, EngineOp.unload])
  else
    let outcome :=
      if funcFound then
        if callOk then RunOutcome.completed
        else if excTerminated then RunOutcome.terminated
        else RunOutcome.exception
      else RunOutcome.notFound
    (outcome, [EngineOp.destroy_exec_env, EngineOp.deinstantiate, EngineOp.unload])

/-- containers/controller.c constants (lines 9-10): `TARGET_TEMP 50.0f`,
`HYSTERESIS 1.0f`. -/
def TARGET_TEMP : ℚ := 50

/-- containers/controller.c `HYSTERESIS 1.0f`. -/
def HYSTERESIS : ℚ := 1

/-- One pass of the containers/controller.c main loop (lines 22-54): the
heater state after reading `current_temp` — switch on below
`TARGET_TEMP - HYSTERESIS`, switch off above `TARGET_TEMP + HYSTERESIS`,
otherwise keep the previous state. -/
def control_step (heater_state : Int) (current_temp : ℚ) : Int :=
  if current_temp < TARGET_TEMP - HYSTERESIS then 1
  else if current_temp > TARGET_TEMP + HYSTERESIS then 0
  else heater_state

/-- The heater state after each reading of a sequence fed to the
containers/controller.c loop. -/
def control_trace (heater_state : Int) : List ℚ → List Int
  | [] => []
  | r :: rs =>
      let s := control_step heater_state r
      s :: control_trace s rs

/-- A well-formed bridge sensor packet buffer carrying reading `v`
(`device_id = 0`, `id = 1`, correct length). -/
def packetOf (v : ℚ) : RecvBuffer :=
  { len := simPacketSize, asPacket := { device_id := 0, id := 1, value := v, counter := 0 } }

/-- The `heater_cmd` deposited by controller2.c `onReceiveData` after each
successive sensor packet of a reading sequence. -/
def controller2_cmd_trace (st : ProcState) : List ℚ → List ℚ
  | [] => []
  | v :: vs =>
      let st2 := controller2_onReceiveData (packetOf v) true st
      st2.heater_cmd :: controller2_cmd_trace st2 vs

/-! Helper lemmas about the thermal update law. -/

/-- The update law written out: it is affine in the command and the current
temperature, `t' = (999/1000) t + c/25 + 1/40`. -/
theorem physics_tick_linear (c t : ℚ) :
    physics_tick c t = (999 / 1000) * t + (1 / 25) * c + 1 / 40 := by
  simp only [physics_tick, AMBIENT_TEMP, HEATING_RATE, COOLING_RATE, THERMAL_MASS]
  ring

/-- One un-clamped tick with a command in `[0,1]` keeps the temperature in
`[25, 65]` (65 = ambient + heating_rate / cooling_rate). -/
theorem physics_tick_mem (c t : ℚ) (hc0 : 0 ≤ c) (hc1 : c ≤ 1)
    (ht0 : 25 ≤ t) (ht1 : t ≤ 65) :
    25 ≤ physics_tick c t ∧ physics_tick c t ≤ 65 := by
  rw [physics_tick_linear]
  constructor <;> linarith

/-- Inductive invariant of the bridge1.c (un-clamped) trajectory: for any
command sequence inside `[0,1]` the temperature stays in `[25, 65]`. -/
theorem tempSeq_bounds (cmds : ℕ → ℚ) (h : ∀ n, 0 ≤ cmds n ∧ cmds n ≤ 1) :
    ∀ n, 25 ≤ tempSeq cmds n ∧ tempSeq cmds n ≤ 65 := by
  intro n
  induction n with
  | zero => norm_num [tempSeq, AMBIENT_TEMP]
  | succ k ih =>
      simp only [tempSeq]
      exact physics_tick_mem _ _ (h k).1 (h k).2 ih.1 ih.2

/-- With the heater held on, the temperature remains strictly below the
steady state 65. -/
theorem tempSeq1_lt_65 : ∀ n, tempSeq1 n < 65 := by
  intro n
  induction n with
  | zero => norm_num [tempSeq1, tempSeq, AMBIENT_TEMP]
  | succ k ih =>
      have hs : tempSeq1 (k + 1) = physics_tick 1 (tempSeq1 k) := rfl
      rw [hs, physics_tick_linear]
      linarith

/-- With the heater held on, the temperature never drops below ambient. -/
theorem tempSeq1_ge_25 : ∀ n, 25 ≤ tempSeq1 n := by
  intro n
  exact (tempSeq_bounds (fun _ => 1) (fun _ => ⟨by norm_num, by norm_num⟩) n).1

/-- With the heater held on, every tick strictly increases the temperature. -/
theorem tempSeq1_step_lt : ∀ n, tempSeq1 n < tempSeq1 (n + 1) := by
  intro n
  have h65 := tempSeq1_lt_65 n
  have hs : tempSeq1 (n + 1) = physics_tick 1 (tempSeq1 n) := rfl
  rw [hs, physics_tick_linear]
  linarith

/-- Closed form of the heater-on trajectory:
`t n = 65 - 40 * (999/1000)^n`. -/
theorem tempSeq1_closed : ∀ n, tempSeq1 n = 65 - 40 * (999 / 1000 : ℚ) ^ n := by
  intro n
  induction n with
  | zero => norm_num [tempSeq1, tempSeq, AMBIENT_TEMP]
  | succ k ih =>
      have hs : tempSeq1 (k + 1) = physics_tick 1 (tempSeq1 k) := rfl
      rw [hs, physics_tick_linear, ih, pow_succ]
      ring

/-- On the heater-on trajectory the bridge.c clamp never fires: the clamped
and un-clamped simulators compute the same temperatures. -/
theorem tempSeqC_eq_tempSeq1 : ∀ n, tempSeqC n = tempSeq1 n := by
  intro n
  induction n with
  | zero => norm_num [tempSeqC, tempSeq1, tempSeq, AMBIENT_TEMP]
  | succ k ih =>
      have htick := physics_tick_mem 1 (tempSeq1 k) (by norm_num) (by norm_num)
        (tempSeq1_ge_25 k) (tempSeq1_lt_65 k).le
      have hs : tempSeq1 (k + 1) = physics_tick 1 (tempSeq1 k) := rfl
      have hng : ¬ (physics_tick 1 (tempSeq1 k) > MAX_TEMP) := by
        simp only [MAX_TEMP]
        push_neg
        linarith [htick.2]
      have hng2 : ¬ (physics_tick 1 (tempSeq1 k) < AMBIENT_TEMP) := by
        simp only [AMBIENT_TEMP]
        push_neg
        linarith [htick.1]
      show physics_tick_clamped 1 (tempSeqC k) = tempSeq1 (k + 1)
      rw [ih]
      simp only [physics_tick_clamped]
      rw [if_neg hng, if_neg hng2, hs]

/-- Numeric value of the steady state implied by the constants:
ambient + heating_rate / cooling_rate = 65. -/
theorem steady_state_eq : AMBIENT_TEMP + HEATING_RATE / COOLING_RATE = 65 := by
  norm_num [AMBIENT_TEMP, HEATING_RATE, COOLING_RATE]

/-- The heater-on trajectory, read in the reals, tends to 65. -/
theorem tendsto_tempSeq1 :
    Filter.Tendsto (fun n => ((tempSeq1 n : ℚ) : ℝ)) Filter.atTop (nhds 65) := by
  have hfun : (fun n => ((tempSeq1 n : ℚ) : ℝ)) =
      fun n => 65 - 40 * (999 / 1000 : ℝ) ^ n := by
    funext n
    rw [tempSeq1_closed n]
    push_cast
    ring
  rw [hfun]
  have hpow : Filter.Tendsto (fun n : ℕ => (999 / 1000 : ℝ) ^ n) Filter.atTop (nhds 0) :=
    tendsto_pow_atTop_nhds_zero_of_lt_one (by norm_num) (by norm_num)
  have h := Filter.Tendsto.const_sub (65 : ℝ) (Filter.Tendsto.const_mul (40 : ℝ) hpow)
  simpa using h

/-! Claim theorems. -/

/-- C1: the bridge1.c receive path and the controller1.c `host_set_heater`
clamp an out-of-range actuator command, but the controller_wamr.c
`host_set_heater` does not: at the input -5 it drives the heater output high
(level 1), whereas clamping -5 into `[0,1]` — as controller1.c does at the
same input — yields 0 (heater off).  This evaluates the code at the failing
input of the code_bug. -/
theorem C1_wamr_set_heater_unclamped :
    wamr_host_set_heater (-5) = 1 ∧
    (controller1_host_set_heater true (-5)
      { current_temp := 25, heater_cmd := 1 }).heater_cmd = 0 ∧
    (bridge1_onReceiveData
      { len := simPacketSize,
        asPacket := { device_id := 1, id := 1, value := -5, counter := 0 } }
      true { current_temp := 25, heater_cmd := 1 }).heater_cmd = 0 := by
  refine ⟨rfl, ?_, ?_⟩ <;> decide

/-- C2: a received byte buffer whose length is not exactly
`sizeof(SimPacket)` makes both receive handlers return with the Shared
Process State untouched — neither `current_temp` nor `heater_cmd` changes. -/
theorem C2_short_buffer_no_mutation (buf : RecvBuffer) (mutexOk : Bool)
    (st : ProcState) (h : buf.len ≠ simPacketSize) :
    controller1_onReceiveData buf mutexOk st = st ∧
    bridge1_onReceiveData buf mutexOk st = st := by
  unfold controller1_onReceiveData bridge1_onReceiveData
  simp [h]

/-- Witness for C2 at a concrete 4-byte buffer. -/
theorem C2_witness :
    ({ len := 4,
       asPacket := { device_id := 0, id := 1, value := 48, counter := 0 } }
        : RecvBuffer).len ≠ simPacketSize ∧
    controller1_onReceiveData
      { len := 4,
        asPacket := { device_id := 0, id := 1, value := 48, counter := 0 } }
      true initState = initState ∧
    bridge1_onReceiveData
      { len := 4,
        asPacket := { device_id := 0, id := 1, value := 48, counter := 0 } }
      true initState = initState :=
  ⟨by decide,
   (C2_short_buffer_no_mutation _ true initState (by decide)).1,
   (C2_short_buffer_no_mutation _ true initState (by decide)).2⟩

/-- C3: on every exit path of `run_wasm` the teardown calls actually made are
exactly the applicable ones — destroy the execution environment (only if it
was created), deinstantiate (only if instantiation succeeded), unload (only
if the load succeeded) — in strictly that order, each at most once. -/
theorem C3_run_wasm_teardown (loadOk instOk envOk funcFound callOk excTerminated : Bool) :
    (run_wasm loadOk instOk envOk funcFound callOk excTerminated).2 =
      (if loadOk = true ∧ instOk = true ∧ envOk = true
        then [EngineOp.destroy_exec_env] else []) ++
      (if loadOk = true ∧ instOk = true then [EngineOp.deinstantiate] else []) ++
      (if loadOk = true then [EngineOp.unload] else []) ∧
    (run_wasm loadOk instOk envOk funcFound callOk excTerminated).2.count
      EngineOp.destroy_exec_env ≤ 1 ∧
    (run_wasm loadOk instOk envOk funcFound callOk excTerminated).2.count
      EngineOp.deinstantiate ≤ 1 ∧
    (run_wasm loadOk instOk envOk funcFound callOk excTerminated).2.count
      EngineOp.unload ≤ 1 := by
  cases loadOk <;> cases instOk <;> cases envOk <;> cases funcFound <;>
    cases callOk <;> cases excTerminated <;> decide

/-- C4: after every tick the stored temperature respects
`[ambient, max_temperature]`: the bridge.c tick clamps any state into
`[25, 100]`, and every state the bridge1.c tick reaches from start-up under
commands in `[0,1]` lies in `[25, 200]` (indeed in `[25, 65]`). -/
theorem C4_temperature_clamped (cmds : ℕ → ℚ)
    (h : ∀ n, 0 ≤ cmds n ∧ cmds n ≤ 1) :
    (∀ c t, AMBIENT_TEMP ≤ physics_tick_clamped c t ∧
      physics_tick_clamped c t ≤ MAX_TEMP) ∧
    (∀ n, AMBIENT_TEMP ≤ tempSeq cmds n ∧
      tempSeq cmds n ≤ MAX_HEATER_TEMP) := by
  constructor
  · intro c t
    simp only [physics_tick_clamped, AMBIENT_TEMP, MAX_TEMP]
    by_cases h1 : physics_tick c t > 100
    · rw [if_pos h1]
      norm_num
    · rw [if_neg h1]
      by_cases h2 : physics_tick c t < 25
      · rw [if_pos h2]
        norm_num
      · rw [if_neg h2]
        push_neg at h1 h2
        exact ⟨h2, h1⟩
  · intro n
    have hb := tempSeq_bounds cmds h n
    constructor
    · simpa [AMBIENT_TEMP] using hb.1
    · have : (65 : ℚ) ≤ 200 := by norm_num
      simp only [MAX_HEATER_TEMP]
      linarith [hb.2]

/-- Witness for C4 with the heater held fully on. -/
theorem C4_witness :
    (∀ n : ℕ, 0 ≤ (fun _ : ℕ => (1 : ℚ)) n ∧ (fun _ : ℕ => (1 : ℚ)) n ≤ 1) ∧
    (AMBIENT_TEMP ≤ tempSeq (fun _ => 1) 3 ∧
      tempSeq (fun _ => 1) 3 ≤ MAX_HEATER_TEMP) :=
  ⟨fun _ => ⟨by norm_num, by norm_num⟩,
   (C4_temperature_clamped (fun _ => 1) (fun _ => ⟨by norm_num, by norm_num⟩)).2 3⟩

/-- C10: without any clamp, the bridge1.c update law already preserves
`ambient ≤ t ≤ ambient + heating_rate / cooling_rate` (that is, `[25, 65]`)
for every command sequence in `[0,1]` starting from ambient, and that ceiling
is well below the declared `MAX_HEATER_TEMP = 200`. -/
theorem C10_unclamped_invariant (cmds : ℕ → ℚ)
    (h : ∀ n, 0 ≤ cmds n ∧ cmds n ≤ 1) :
    (∀ n, AMBIENT_TEMP ≤ tempSeq cmds n ∧
      tempSeq cmds n ≤ AMBIENT_TEMP + HEATING_RATE / COOLING_RATE) ∧
    AMBIENT_TEMP + HEATING_RATE / COOLING_RATE < MAX_HEATER_TEMP := by
  constructor
  · intro n
    have hb := tempSeq_bounds cmds h n
    rw [steady_state_eq]
    constructor
    · simpa [AMBIENT_TEMP] using hb.1
    · exact hb.2
  · rw [steady_state_eq]
    norm_num [MAX_HEATER_TEMP]

/-- Witness for C10 with the heater held at half power. -/
theorem C10_witness :
    (∀ n : ℕ, 0 ≤ (fun _ : ℕ => (1 / 2 : ℚ)) n ∧
      (fun _ : ℕ => (1 / 2 : ℚ)) n ≤ 1) ∧
    (AMBIENT_TEMP ≤ tempSeq (fun _ => 1 / 2) 2 ∧
      tempSeq (fun _ => 1 / 2) 2 ≤ AMBIENT_TEMP + HEATING_RATE / COOLING_RATE) :=
  ⟨fun _ => ⟨by norm_num, by norm_num⟩,
   (C10_unclamped_invariant (fun _ => 1 / 2)
     (fun _ => ⟨by norm_num, by norm_num⟩)).1 2⟩

/-- C5 counterexample: with the heater held on, the bridge1.c temperature
does not converge to `MAX_HEATER_TEMP = 200` — its limit is 65. -/
theorem C5_counterexample :
    ¬ Filter.Tendsto (fun n => ((tempSeq1 n : ℚ) : ℝ)) Filter.atTop
      (nhds ((MAX_HEATER_TEMP : ℚ) : ℝ)) := by
  intro hT
  have h := tendsto_nhds_unique tendsto_tempSeq1 hT
  norm_num [MAX_HEATER_TEMP] at h

/-- C5 (amended): with `actuator_command = 1` held indefinitely, the
temperature converges to the steady state
ambient + heating_rate / cooling_rate (= 65), never exceeds
`MAX_HEATER_TEMP` on the bridge1.c variant, and never exceeds `MAX_TEMP` on
the clamped bridge.c variant (whose trajectory coincides with bridge1.c's). -/
theorem C5_saturates_at_steady_state :
    Filter.Tendsto (fun n => ((tempSeq1 n : ℚ) : ℝ)) Filter.atTop
      (nhds (((AMBIENT_TEMP + HEATING_RATE / COOLING_RATE : ℚ) : ℝ))) ∧
    (∀ n, tempSeq1 n ≤ MAX_HEATER_TEMP) ∧
    (∀ n, tempSeqC n = tempSeq1 n) ∧
    (∀ n, tempSeqC n ≤ MAX_TEMP) := by
  have hle : ∀ n, tempSeq1 n ≤ 65 := fun n => (tempSeq1_lt_65 n).le
  refine ⟨?_, fun n => ?_, tempSeqC_eq_tempSeq1, fun n => ?_⟩
  · have hcast : ((AMBIENT_TEMP + HEATING_RATE / COOLING_RATE : ℚ) : ℝ) = 65 := by
      rw [steady_state_eq]
      norm_num
    rw [hcast]
    exact tendsto_tempSeq1
  · have := hle n
    simp only [MAX_HEATER_TEMP]
    linarith
  · rw [tempSeqC_eq_tempSeq1 n]
    have := hle n
    simp only [MAX_TEMP]
    linarith

/-- C6 (amended): in the 50-tick heater-on scenario (ambient 25,
heating_rate 0.8, cooling_rate 0.02, thermal_mass 0.95, noise disabled) the
internal temperature starts at ambient, strictly increases at every tick,
and stays strictly below the declared maximum of either simulator variant —
in particular it has not reached it by tick 50; the clamped bridge.c
trajectory coincides tick for tick.  (The asymptote of the trajectory is the
steady state 65, not `max_temperature`; see the C6 counterexample.) -/
theorem C6_fifty_tick_scenario :
    tempSeq1 0 = AMBIENT_TEMP ∧
    (∀ i, tempSeq1 i < tempSeq1 (i + 1)) ∧
    (∀ i, tempSeq1 i < MAX_TEMP ∧ tempSeq1 i < MAX_HEATER_TEMP) ∧
    tempSeq1 50 < MAX_TEMP ∧
    (∀ i, tempSeqC i = tempSeq1 i) := by
  have hlt : ∀ i, tempSeq1 i < 65 := tempSeq1_lt_65
  refine ⟨rfl, tempSeq1_step_lt, fun i => ⟨?_, ?_⟩, ?_, tempSeqC_eq_tempSeq1⟩
  · have := hlt i
    simp only [MAX_TEMP]
    linarith
  · have := hlt i
    simp only [MAX_HEATER_TEMP]
    linarith
  · have := hlt 50
    simp only [MAX_TEMP]
    linarith

/-- C6 counterexample: the clamped bridge.c heater-on trajectory does not
asymptotically approach `MAX_TEMP = 100` — its limit is the steady state 65. -/
theorem C6_counterexample :
    ¬ Filter.Tendsto (fun n => ((tempSeqC n : ℚ) : ℝ)) Filter.atTop
      (nhds ((MAX_TEMP : ℚ) : ℝ)) := by
  intro hT
  have hfun : (fun n => ((tempSeqC n : ℚ) : ℝ)) =
      fun n => ((tempSeq1 n : ℚ) : ℝ) := by
    funext n
    rw [tempSeqC_eq_tempSeq1 n]
  rw [hfun] at hT
  have h := tendsto_nhds_unique tendsto_tempSeq1 hT
  norm_num [MAX_TEMP] at h

/-- C7: the hysteresis controller (band 1.0 around 50.0, heater initially
off) maps the reading sequence 48.0, 49.5, 50.5, 52.0 to the command levels
ON, ON, ON, OFF — in both the containers/controller.c guest loop and the
controller2.c in-handler variant; moreover the law holds its state anywhere
inside the band and switches only when a reading leaves the band on the
opposite side. -/
theorem C7_hysteresis_scenario :
    control_trace 0 [48, 99 / 2, 101 / 2, 52] = [1, 1, 1, 0] ∧
    controller2_cmd_trace initState [48, 99 / 2, 101 / 2, 52] = [1, 1, 1, 0] ∧
    (∀ s r, TARGET_TEMP - HYSTERESIS ≤ r → r ≤ TARGET_TEMP + HYSTERESIS →
      control_step s r = s) ∧
    (∀ s r, control_step s r ≠ s →
      (r < TARGET_TEMP - HYSTERESIS ∧ control_step s r = 1) ∨
      (TARGET_TEMP + HYSTERESIS < r ∧ control_step s r = 0)) := by
  refine ⟨?_, ?_, ?_, ?_⟩
  · norm_num [control_trace, control_step, TARGET_TEMP, HYSTERESIS]
  · norm_num [controller2_cmd_trace, controller2_onReceiveData, packetOf,
      initState, simPacketSize, target_temp, hysteresis]
  · intro s r h1 h2
    simp only [TARGET_TEMP, HYSTERESIS] at h1 h2
    simp only [control_step, TARGET_TEMP, HYSTERESIS]
    rw [if_neg (by linarith), if_neg (by linarith)]
  · intro s r hne
    simp only [control_step, TARGET_TEMP, HYSTERESIS] at hne ⊢
    by_cases h1 : r < 50 - 1
    · left
      rw [if_pos h1]
      exact ⟨h1, rfl⟩
    · right
      rw [if_neg h1] at hne
      by_cases h2 : r > 50 + 1
      · rw [if_neg h1, if_pos h2]
        exact ⟨h2, rfl⟩
      · rw [if_neg h2] at hne
        exact absurd rfl hne

/-- C8 counterexample: when the bounded mutex wait times out,
`host_get_temperature` returns the hardcoded constant 25.0, not the last
externally supplied reading — here the stored reading is 80.0. -/
theorem C8_counterexample :
    host_get_temperature false { current_temp := 80, heater_cmd := 0 } = 25 ∧
    (25 : ℚ) ≠ 80 := by
  refine ⟨rfl, by norm_num⟩

/-- C8 (amended): on a guard-acquisition timeout every accessor proceeds with
a fixed safe default instead of blocking — the sender and the physics tick
fall back to a 0 % actuator command, and the reading path falls back to the
fixed initial value 25.0 (not to the last stored reading). -/
theorem C8_timeout_defaults :
    (∀ st, host_get_temperature false st = 25) ∧
    (∀ st, sender_cmd false st = 0) ∧
    (∀ st, physics_local_cmd false st = 0) :=
  ⟨fun _ => rfl, fun _ => rfl, fun _ => rfl⟩

/-- C9 counterexample: the controller2.c receive handler does not restrict
itself to depositing the received process variable — on a valid sensor
packet reading 48.0 it also rewrites `heater_cmd` (from 0 to 1) inside the
handler. -/
theorem C9_counterexample :
    (controller2_onReceiveData (packetOf 48) true initState).heater_cmd ≠
      initState.heater_cmd := by
  norm_num [controller2_onReceiveData, packetOf, initState, simPacketSize,
    target_temp, hysteresis]

/-- C9 (amended): the controller1.c receive handler deposits only the
received process variable — it never touches `heater_cmd` and either leaves
the state unchanged or sets `current_temp` to the packet value — while the
controller2.c variant additionally executes the hysteresis decision and
writes `heater_cmd` inside the handler. -/
theorem C9_receive_handler_frame :
    (∀ buf mutexOk st,
      (controller1_onReceiveData buf mutexOk st).heater_cmd = st.heater_cmd ∧
      (controller1_onReceiveData buf mutexOk st = st ∨
        controller1_onReceiveData buf mutexOk st =
          { st with current_temp := buf.asPacket.value })) ∧
    (controller2_onReceiveData (packetOf 48) true initState).heater_cmd = 1 ∧
    initState.heater_cmd = 0 := by
  refine ⟨?_, ?_, rfl⟩
  swap
  · norm_num [controller2_onReceiveData, packetOf, initState, simPacketSize,
      target_temp, hysteresis]
  intro buf mutexOk st
  simp only [controller1_onReceiveData]
  split_ifs <;> simp
